import Mathlib

/-!
# Verification of the lucid-query-pilot front end

Shallow embedding of the repository's API client layer (`src/api/query.ts`,
`src/api/schema.ts`), the dashboard workflow controller (`Dashboard.tsx`),
and the schema-upload workflow (`SchemaUpload.tsx`, plus the timeout-equipped
`uploadSchema` variant).

JavaScript runtime values are modelled by `JSValue`; an HTTP response is its
`ok` flag together with a body that either parses as JSON or does not
(`response.json()` rejecting).  Thrown JS errors are modelled by `JsErr`.
Each `fetch` wrapper becomes a function from the response it receives to the
`Except` of the value it returns or the error it throws; request construction
(URL, headers, serialized body) is not modelled because the wrapper's
behaviour depends only on the response.
-/

namespace LucidQuery

/-- A JavaScript/JSON runtime value, as far as this code base inspects one.
Numbers are modelled as integers (no claim involves fractional numerics). -/
inductive JSValue where
  | undefined : JSValue
  | nul : JSValue
  | bool (b : Bool) : JSValue
  | num (n : Int) : JSValue
  | str (s : String) : JSValue
  | arr (xs : List JSValue) : JSValue
  | obj (fields : List (String × JSValue)) : JSValue

/-- JS property read `v.k`: field lookup on an object, `undefined` otherwise.
(Reads on `null`/`undefined` throw in JS; the code base only reads fields of
parsed JSON bodies, which are never `null`/`undefined` here.) -/
def JSValue.getField (v : JSValue) (k : String) : JSValue :=
  match v with
  | .obj fields =>
    match fields.find? (fun p => p.1 == k) with
    | some p => p.2
    | none => .undefined
  | _ => .undefined

/-- JS truthiness: `undefined`, `null`, `false`, `0` and `""` are falsy;
every array and object (including empty ones) is truthy. -/
def JSValue.truthy : JSValue → Bool
  | .undefined => false
  | .nul => false
  | .bool b => b
  | .num n => n != 0
  | .str s => s != ""
  | .arr _ => true
  | .obj _ => true

/-- JS string coercion `String(v)` as used by `new Error(v)` and template
literals.  Array elements are joined with commas as in
`Array.prototype.toString` (nested `null`/`undefined` elements are
approximated by their top-level coercions; no claim exercises that corner). -/
def JSValue.asString : JSValue → String
  | .undefined => "undefined"
  | .nul => "null"
  | .bool b => if b then "true" else "false"
  | .num n => toString n
  | .str s => s
  | .arr xs => String.intercalate "," (xs.attach.map (fun x => x.1.asString))
  | .obj _ => "[object Object]"
termination_by v => sizeOf v
decreasing_by
  have := List.sizeOf_lt_of_mem x.2
  simp_wf
  omega

/-- JS strict equality `v === s` of a runtime value against a string literal. -/
def JSValue.eqStr (v : JSValue) (s : String) : Bool :=
  match v with
  | .str t => t == s
  | _ => false

/-- JS `.length` where the code base reads it: defined for arrays and strings,
`undefined` (here `none`) for everything else. -/
def JSValue.jsLength : JSValue → Option Nat
  | .arr xs => some xs.length
  | .str s => some s.length
  | _ => none

/-- The body of an HTTP response: either valid JSON, or text on which
`response.json()` rejects with a parse-error message. -/
inductive RespBody where
  | malformed (msg : String) : RespBody
  | jsonVal (v : JSValue) : RespBody

/-- An HTTP response as the fetch wrappers observe it: the `response.ok`
flag (status in the 2xx range) and the body. -/
structure HttpResponse where
  ok : Bool
  body : RespBody

/-- A thrown JS error: `new Error(msg)`, a `response.json()` rejection
(`SyntaxError`), or the `AbortError` produced when a fetch is aborted. -/
inductive JsErr where
  | thrown (msg : String) : JsErr
  | parseFailure (msg : String) : JsErr
  | abortErr : JsErr

/-- The `message` property of a thrown error.  The `AbortError` message text
is the standard browser wording. -/
def JsErr.message : JsErr → String
  | .thrown m => m
  | .parseFailure m => m
  | .abortErr => "The user aborted a request."

/-- Model of `await response.json()`: the parsed JSON value, or a rejection. -/
def respJson (r : HttpResponse) : Except JsErr JSValue :=
  match r.body with
  | .malformed m => .error (.parseFailure m)
  | .jsonVal v => .ok v

/-- JS `a || b` on strings (`""` is falsy). -/
def strOr (a b : String) : String := if a == "" then b else a

/-- JS `String.prototype.trim`: strip whitespace from both ends.  Defined
structurally over the character list so that it evaluates by `decide`
(ASCII whitespace approximates the JS Unicode whitespace class; the claims
only involve blank-vs-non-blank inputs). -/
def jsTrim (s : String) : String :=
  ⟨((s.data.dropWhile Char.isWhitespace).reverse.dropWhile Char.isWhitespace).reverse⟩

/-- The error message built by the detail-parsing wrappers:
`new Error(error.detail || fallback)` on the parsed error body. -/
def errorDetailMsg (v : JSValue) (fallback : String) : String :=
  if (v.getField "detail").truthy then (v.getField "detail").asString else fallback

/-- Embedding of `generateSQL` from `src/api/query.ts`: on non-2xx, parses the body and
throws `error.detail || "Failed to generate SQL"`; on 2xx returns the parsed
body. -/
def generateSQL (r : HttpResponse) : Except JsErr JSValue :=
  if !r.ok then
    match respJson r with
    | .error e => .error e
    | .ok v => .error (.thrown (errorDetailMsg v "Failed to generate SQL"))
  else respJson r

/-- Embedding of `fetchActiveSchema` from `src/api/query.ts`: on non-2xx throws the fixed
message without reading the body. -/
def fetchActiveSchema (r : HttpResponse) : Except JsErr JSValue :=
  if !r.ok then .error (.thrown "Failed to fetch schema status")
  else respJson r

/-- Embedding of `listConnections` from `src/api/query.ts`: on non-2xx throws the fixed
message without reading the body. -/
def listConnections (r : HttpResponse) : Except JsErr JSValue :=
  if !r.ok then .error (.thrown "Failed to fetch database connections")
  else respJson r

/-- Embedding of `executeSQL` from `src/api/query.ts`. -/
def executeSQL (r : HttpResponse) : Except JsErr JSValue :=
  if !r.ok then
    match respJson r with
    | .error e => .error e
    | .ok v => .error (.thrown (errorDetailMsg v "Failed to execute SQL"))
  else respJson r

/-- Embedding of `analyzeResults` from `src/api/query.ts`. -/
def analyzeResults (r : HttpResponse) : Except JsErr JSValue :=
  if !r.ok then
    match respJson r with
    | .error e => .error e
    | .ok v => .error (.thrown (errorDetailMsg v "Failed to generate analysis"))
  else respJson r

/-- Embedding of `uploadSchema` from `src/api/schema.ts` (the variant without a timeout). -/
def uploadSchema (r : HttpResponse) : Except JsErr JSValue :=
  if !r.ok then
    match respJson r with
    | .error e => .error e
    | .ok v => .error (.thrown (errorDetailMsg v "Failed to upload schema"))
  else respJson r

/-! ## Dashboard workflow controller (`src/pages/Dashboard.tsx`) -/

/-- A `toast(...)` notification as the dashboard raises one: title,
description, and whether `variant: "destructive"` was passed. -/
structure Toast where
  title : String
  description : String
  destructive : Bool
deriving DecidableEq, Repr

/-- One network call performed by the dashboard, in order of issue. -/
inductive ApiCall where
  | schemaStatus : ApiCall
  | connections : ApiCall
  | generate : ApiCall
  | execute : ApiCall
  | analyze : ApiCall
deriving DecidableEq, Repr

/-- The dashboard's React state (`useState` hooks, `Dashboard.tsx` lines
27-39).  `generatedSQL`, `editableSQL` and `naturalLanguageResponse` are kept
as strings, with non-string backend values passing through the JS string
coercion `JSValue.asString`; `queryResults` keeps the raw value stored by
`setQueryResults`. -/
structure DashState where
  naturalLanguageQuery : String
  generatedSQL : String
  editableSQL : String
  isEditingSQL : Bool
  queryResults : JSValue
  naturalLanguageResponse : String
  isGenerating : Bool
  isExecuting : Bool
  isAnalyzing : Bool
  hasSchema : Bool
  schemaName : Option String

/-- The initial dashboard state on mount. -/
def initDashState : DashState :=
  { naturalLanguageQuery := ""
    generatedSQL := ""
    editableSQL := ""
    isEditingSQL := false
    queryResults := .arr []
    naturalLanguageResponse := ""
    isGenerating := false
    isExecuting := false
    isAnalyzing := false
    hasSchema := false
    schemaName := none }

/-- A dashboard session: the React state plus the observable effect logs
(toasts raised, network calls issued, both in order). -/
structure Session where
  st : DashState
  toasts : List Toast
  calls : List ApiCall

/-- A fresh session with the initial state and empty effect logs. -/
def initSession : Session := ⟨initDashState, [], []⟩

/-- Raise a toast. -/
def pushToast (s : Session) (t : Toast) : Session :=
  { s with toasts := s.toasts ++ [t] }

/-- Record that a network call was issued. -/
def logCall (s : Session) (c : ApiCall) : Session :=
  { s with calls := s.calls ++ [c] }

/-- The backend's behaviour for one user action: the HTTP response each of
the dashboard's fetches would receive if issued. -/
structure Env where
  schemaStatusResp : HttpResponse
  generateResp : HttpResponse
  executeResp : HttpResponse
  analyzeResp : HttpResponse

/-- The mount-time effect `checkSchemaStatus` (`Dashboard.tsx` lines 60-72):
fetch the schema status; on success record whether it is `"active"` and the
schema name (`status.schema_name || null`); on failure silently record no
schema.  No toast is raised and the failure is swallowed by the `catch`. -/
def checkSchemaStatus (env : Env) (s : Session) : Session :=
  let s := logCall s .schemaStatus
  match fetchActiveSchema env.schemaStatusResp with
  | .ok status =>
    let s := { s with st.hasSchema := (status.getField "status").eqStr "active" }
    { s with st.schemaName :=
        if (status.getField "schema_name").truthy
        then some (status.getField "schema_name").asString else none }
  | .error _ =>
    let s := { s with st.hasSchema := false }
    { s with st.schemaName := none }

/-- The toast shown when generate is triggered with blank input. -/
def emptyQueryToast : Toast :=
  ⟨"Please enter a query",
   "Type your question in natural language to generate SQL.", true⟩

/-- The toast shown when execute is triggered with blank SQL. -/
def emptySQLToast : Toast :=
  ⟨"No SQL to execute", "Please generate or write a SQL query first.", true⟩

/-- The no-schema toast on the generate path. -/
def noSchemaGenerateToast : Toast :=
  ⟨"No active schema found", "Please upload a schema before generating SQL.", true⟩

/-- The no-schema toast on the execute path. -/
def noSchemaExecuteToast : Toast :=
  ⟨"No active schema found", "Please upload a schema before executing SQL.", true⟩

/-- Embedding of `handleGenerateSQL` (`Dashboard.tsx` lines 83-129).  Linearization of the
async handler: the `finally { setIsGenerating(false) }` is applied on every
path that entered the `try`. -/
def handleGenerateSQL (env : Env) (s : Session) : Session :=
  if jsTrim s.st.naturalLanguageQuery == "" then
    pushToast s emptyQueryToast
  else
    let s := { s with st.isGenerating := true }
    let s := logCall s .schemaStatus
    match fetchActiveSchema env.schemaStatusResp with
    | .error e =>
      let s := pushToast s ⟨"Error generating SQL",
        strOr e.message "Please try again or contact support if the issue persists.",
        true⟩
      { s with st.isGenerating := false }
    | .ok schemaStatus =>
      if !(schemaStatus.getField "status").eqStr "active"
          || !(schemaStatus.getField "schema_id").truthy then
        let s := pushToast s noSchemaGenerateToast
        { s with st.isGenerating := false }
      else
        let s := logCall s .generate
        match generateSQL env.generateResp with
        | .error e =>
          let s := pushToast s ⟨"Error generating SQL",
            strOr e.message "Please try again or contact support if the issue persists.",
            true⟩
          { s with st.isGenerating := false }
        | .ok result =>
          let sql := result.getField "generated_sql"
          let s := { s with st.generatedSQL := sql.asString }
          let s := { s with st.editableSQL := sql.asString }
          let s := pushToast s ⟨"SQL generated successfully!",
            "Review the query below and execute when ready.", false⟩
          { s with st.isGenerating := false }

/-- The row count shown by the execute success toast:
`result.results?.length || 0`. -/
def displayedRowCount (results : JSValue) : Nat :=
  (results.jsLength).getD 0

/-- The guard `result.results && result.results.length > 0` deciding whether
analysis runs (JS `undefined > 0` is false). -/
def shouldAnalyze (results : JSValue) : Bool :=
  results.truthy &&
    (match results.jsLength with
     | some n => decide (0 < n)
     | none => false)

/-- Embedding of `handleExecuteSQL` (`Dashboard.tsx` lines 131-182), linearized the same
way; the inner `try/catch/finally` around the analysis call is inlined. -/
def handleExecuteSQL (env : Env) (s : Session) : Session :=
  if jsTrim s.st.editableSQL == "" then
    pushToast s emptySQLToast
  else
    let s := { s with st.isExecuting := true }
    let s := logCall s .schemaStatus
    match fetchActiveSchema env.schemaStatusResp with
    | .error e =>
      let s := pushToast s ⟨"Error executing query",
        strOr e.message "Please check your SQL syntax and try again.", true⟩
      { s with st.isExecuting := false }
    | .ok schemaStatus =>
      if !(schemaStatus.getField "status").eqStr "active"
          || !(schemaStatus.getField "schema_id").truthy then
        let s := pushToast s noSchemaExecuteToast
        { s with st.isExecuting := false }
      else
        let s := logCall s .execute
        match executeSQL env.executeResp with
        | .error e =>
          let s := pushToast s ⟨"Error executing query",
            strOr e.message "Please check your SQL syntax and try again.", true⟩
          { s with st.isExecuting := false }
        | .ok result =>
          let results := result.getField "results"
          let s := { s with st.queryResults :=
            if results.truthy then results else .arr [] }
          let s := { s with st.naturalLanguageResponse := "" }
          let s := pushToast s ⟨"Query executed successfully!",
            "Retrieved " ++ toString (displayedRowCount results) ++ " rows.", false⟩
          if shouldAnalyze results then
            let s := { s with st.isAnalyzing := true }
            let s := logCall s .analyze
            let s :=
              match analyzeResults env.analyzeResp with
              | .ok analysis =>
                { s with st.naturalLanguageResponse :=
                    (analysis.getField "analysis").asString }
              | .error e =>
                { s with st.naturalLanguageResponse :=
                    "Failed to generate analysis: " ++ strOr e.message "Unknown error" }
            let s := { s with st.isAnalyzing := false }
            { s with st.isExecuting := false }
          else
            { s with st.isExecuting := false }

/-! ## Upload progress simulation (`src/pages/SchemaUpload.tsx` lines 66-114)

`handleFileUpload` starts the progress at 0 and, on a fixed 200 ms interval,
runs `prev >= 90 ? prev : prev + Math.random() * 15`; when the real request
resolves on the success path it forces the value to 100.  `Math.random()`
returns a float in `[0, 1)`; each tick's increment `Math.random() * 15` is
modelled as an arbitrary rational in `[0, 15)` (floating point itself is not
embedded; the claims concern order, not rounding). -/

/-- One interval tick of the progress simulation:
`prev >= 90 ? (clearInterval; prev) : prev + increment`. -/
def tickStep (prev incr : ℚ) : ℚ :=
  if prev ≥ 90 then prev else prev + incr

/-- The successive progress values produced by the ticks that fire before the
request settles, one per element of `incrs`, starting from `prev`. -/
def tickTrace (prev : ℚ) : List ℚ → List ℚ
  | [] => []
  | i :: is => tickStep prev i :: tickTrace (tickStep prev i) is

/-- The whole sequence of values taken by `uploadProgress` in one
success-path session: the initial `setUploadProgress(0)`, the interval ticks,
then the forced `setUploadProgress(100)` after `uploadSchema` resolves. -/
def uploadTraceSuccess (incrs : List ℚ) : List ℚ :=
  0 :: tickTrace 0 incrs ++ [100]

/-! ## Timeout-equipped `uploadSchema` variant

The variant creates an `AbortController`, arms a `setTimeout` for
`10 * 60 * 1000` ms that aborts the fetch, and clears the timer both after
the fetch resolves and in the `catch`.  The fetch is modelled by when (if
ever) it would settle and the response it would carry; the timer fires iff
the fetch has not settled strictly before the deadline (a settle in the very
same millisecond is resolved in favour of the timer, an arbitrary choice the
claims do not depend on). -/

/-- The timer duration: `10 * 60 * 1000` ms. -/
def uploadTimeoutMs : Nat := 10 * 60 * 1000

/-- Observable outcome of one run of the timeout-equipped variant. -/
structure TimedUpload where
  outcome : Except JsErr JSValue
  timerFired : Bool
  timerCleared : Bool

/-- The timeout-equipped `uploadSchema` variant.  `settleAt` is the time in
ms at which the un-aborted fetch would settle (`none` if it never would);
`r` is the response it would then carry.  If the timer wins, the fetch
rejects with `AbortError`, re-thrown by the `catch` (whose `clearTimeout` on
the already-fired timer is a no-op).  Otherwise the timer is cleared —
`clearTimeout` right after the fetch resolves, and the `catch` also clears on
the throwing paths — and the response is processed as in the plain variant. -/
def uploadSchemaWithTimeout (settleAt : Option Nat) (r : HttpResponse) :
    TimedUpload :=
  match settleAt with
  | none => ⟨.error .abortErr, true, false⟩
  | some t =>
    if t < uploadTimeoutMs then
      { outcome :=
          if !r.ok then
            match respJson r with
            | .error e => .error e
            | .ok v => .error (.thrown (errorDetailMsg v "Failed to upload schema"))
          else respJson r
        timerFired := false
        timerCleared := true }
    else ⟨.error .abortErr, true, false⟩

/-! ## Concrete fixtures used by witness theorems -/

/-- A 2xx response whose body is JSON `null` (filler for calls a scenario
never issues). -/
def nullOkResp : HttpResponse := ⟨true, .jsonVal .nul⟩

/-- An active schema-status body with id `"abc"` and name `"Demo"`. -/
def activeStatusVal : JSValue :=
  .obj [("status", .str "active"), ("schema_id", .str "abc"), ("schema_name", .str "Demo")]

/-- A schema-status body whose status is not `"active"`. -/
def inactiveStatusVal : JSValue := .obj [("status", .str "none")]

/-- A session whose user has typed a question and has SQL in the editor. -/
def demoSession : Session :=
  { st := { initDashState with
      naturalLanguageQuery := "top 5 customers"
      editableSQL := "SELECT 1" }
    toasts := []
    calls := [] }

/-- Backend behaviour: the schema-status fetch succeeds but reports no
active schema. -/
def inactiveEnv : Env :=
  ⟨⟨true, .jsonVal inactiveStatusVal⟩, nullOkResp, nullOkResp, nullOkResp⟩

/-- Backend behaviour: active schema; executing returns zero rows. -/
def emptyRowsEnv : Env :=
  ⟨⟨true, .jsonVal activeStatusVal⟩, nullOkResp,
   ⟨true, .jsonVal (.obj [("results", .arr [])])⟩, nullOkResp⟩

/-- Backend behaviour: active schema; executing returns one row; the
analysis call fails with detail `"rate limited"`. -/
def oneRowEnv : Env :=
  ⟨⟨true, .jsonVal activeStatusVal⟩, nullOkResp,
   ⟨true, .jsonVal (.obj [("results", .arr [.obj [("id", .num 1)]])])⟩,
   ⟨false, .jsonVal (.obj [("detail", .str "rate limited")])⟩⟩

/-- Backend behaviour: active schema; SQL generation succeeds. -/
def genOkEnv : Env :=
  ⟨⟨true, .jsonVal activeStatusVal⟩,
   ⟨true, .jsonVal (.obj [("generated_sql", .str "SELECT * FROM customers LIMIT 5")])⟩,
   nullOkResp, nullOkResp⟩

/-- Backend behaviour: the schema-status endpoint fails (non-2xx). -/
def statusDownEnv : Env :=
  ⟨⟨false, .jsonVal (.obj [])⟩, nullOkResp, nullOkResp, nullOkResp⟩

/-- Backend behaviour: active schema; executing succeeds with a body that
has no `results` field at all. -/
def noResultsFieldEnv : Env :=
  ⟨⟨true, .jsonVal activeStatusVal⟩, nullOkResp,
   ⟨true, .jsonVal (.obj [("rowcount", .num 0)])⟩, nullOkResp⟩

/-! ## Helper lemmas for the upload-progress development -/

/-- One progress tick never decreases the value when its increment is
non-negative. -/
theorem tickStep_le (p i : ℚ) (h : 0 ≤ i) : p ≤ tickStep p i := by
  unfold tickStep
  split
  · exact le_refl p
  · linarith

/-- The tick-driven progress sequence is non-decreasing as long as every
increment is non-negative. -/
theorem tickTrace_chain (incrs : List ℚ) : ∀ p : ℚ, (∀ i ∈ incrs, 0 ≤ i) →
    List.Chain' (· ≤ ·) (p :: tickTrace p incrs) := by
  induction incrs with
  | nil => intro p _; simp [tickTrace]
  | cons i is ih =>
    intro p h
    simp only [tickTrace]
    rw [List.chain'_cons]
    exact ⟨tickStep_le p i (h i (by simp)),
      ih (tickStep p i) (fun j hj => h j (by simp [hj]))⟩

/-- Every tick value stays strictly below 105 when the start does and every
increment is below 15 (the range of `Math.random() * 15`). -/
theorem tickTrace_lt (incrs : List ℚ) : ∀ p : ℚ, p < 105 → (∀ i ∈ incrs, i < 15) →
    ∀ v ∈ tickTrace p incrs, v < 105 := by
  induction incrs with
  | nil => intro p _ _ v hv; simp [tickTrace] at hv
  | cons i is ih =>
    intro p hp h15 v hv
    have hnext : tickStep p i < 105 := by
      unfold tickStep
      split
      case isTrue => exact hp
      case isFalse hnot =>
        have h1 : p < 90 := not_le.mp hnot
        have h2 : i < 15 := h15 i (by simp)
        linarith
    simp only [tickTrace, List.mem_cons] at hv
    rcases hv with rfl | hv
    · exact hnext
    · exact ih (tickStep p i) hnext (fun j hj => h15 j (by simp [hj])) v hv

/-! ## Claim theorems -/

/-- C1 (corrected).  Error messages of the API client on non-2xx responses.
For the four detail-parsing operations (`generateSQL`, `executeSQL`,
`analyzeResults`, `uploadSchema`) and a response whose body parses as JSON:
a non-empty string `detail` becomes the thrown message, and an absent
`detail` yields the operation's fixed fallback.  `fetchActiveSchema` and
`listConnections`, however, never read the body: they always throw their
fixed fallback, which is what forces the correction of the original claim.
In the embedding each operation throws exactly one error (`Except.error`). -/
theorem api_error_message_contract (v : JSValue) (b : RespBody) :
    (∀ s : String, s ≠ "" → v.getField "detail" = .str s →
      generateSQL ⟨false, .jsonVal v⟩ = .error (.thrown s) ∧
      executeSQL ⟨false, .jsonVal v⟩ = .error (.thrown s) ∧
      analyzeResults ⟨false, .jsonVal v⟩ = .error (.thrown s) ∧
      uploadSchema ⟨false, .jsonVal v⟩ = .error (.thrown s)) ∧
    (v.getField "detail" = .undefined →
      generateSQL ⟨false, .jsonVal v⟩ = .error (.thrown "Failed to generate SQL") ∧
      executeSQL ⟨false, .jsonVal v⟩ = .error (.thrown "Failed to execute SQL") ∧
      analyzeResults ⟨false, .jsonVal v⟩ = .error (.thrown "Failed to generate analysis") ∧
      uploadSchema ⟨false, .jsonVal v⟩ = .error (.thrown "Failed to upload schema")) ∧
    fetchActiveSchema ⟨false, b⟩ = .error (.thrown "Failed to fetch schema status") ∧
    listConnections ⟨false, b⟩ = .error (.thrown "Failed to fetch database connections") := by
  refine ⟨?_, ?_, ?_, ?_⟩
  · intro s hs hd
    simp [generateSQL, executeSQL, analyzeResults, uploadSchema, respJson, errorDetailMsg,
      hd, JSValue.truthy, JSValue.asString, hs]
  · intro hd
    simp [generateSQL, executeSQL, analyzeResults, uploadSchema, respJson, errorDetailMsg,
      hd, JSValue.truthy]
  · simp [fetchActiveSchema]
  · simp [listConnections]

/-- C1 witness: the contract evaluated at a concrete `detail` body. -/
theorem api_error_message_contract_witness :
    generateSQL ⟨false, .jsonVal (.obj [("detail", .str "boom")])⟩ = .error (.thrown "boom") ∧
    fetchActiveSchema ⟨false, .jsonVal (.obj [("detail", .str "boom")])⟩
      = .error (.thrown "Failed to fetch schema status") := by
  have h := api_error_message_contract (.obj [("detail", .str "boom")])
    (.jsonVal (.obj [("detail", .str "boom")]))
  exact ⟨(h.1 "boom" (by decide) (by rfl)).1, h.2.2.1⟩

/-- C1 counterexample to the claim as stated: a non-2xx schema-status
response whose JSON body carries `detail: "boom"` still throws the generic
message, not the `detail` string. -/
theorem api_detail_ignored_on_status_fetch :
    fetchActiveSchema ⟨false, .jsonVal (.obj [("detail", .str "boom")])⟩
      = .error (.thrown "Failed to fetch schema status") ∧
    "Failed to fetch schema status" ≠ "boom" :=
  ⟨rfl, by decide⟩

/-- C2 (confirmed).  When the triggering control passes its local blank check
(the fetch is only reached then) and the schema-status fetch succeeds with a
status other than `"active"`, both generate and execute issue only the
status fetch (the call log grows by exactly `[schemaStatus]`, so zero
generate/execute calls), show the no-schema notification, and leave the
SQL, result and analysis state fields unchanged. -/
theorem no_active_schema_aborts_pipeline (env : Env) (s : Session) (status : JSValue)
    (hfetch : fetchActiveSchema env.schemaStatusResp = .ok status)
    (hinactive : (status.getField "status").eqStr "active" = false) :
    (jsTrim s.st.naturalLanguageQuery ≠ "" →
      (handleGenerateSQL env s).calls = s.calls ++ [.schemaStatus] ∧
      (handleGenerateSQL env s).toasts = s.toasts ++ [noSchemaGenerateToast] ∧
      (handleGenerateSQL env s).st.generatedSQL = s.st.generatedSQL ∧
      (handleGenerateSQL env s).st.editableSQL = s.st.editableSQL ∧
      (handleGenerateSQL env s).st.queryResults = s.st.queryResults ∧
      (handleGenerateSQL env s).st.naturalLanguageResponse = s.st.naturalLanguageResponse) ∧
    (jsTrim s.st.editableSQL ≠ "" →
      (handleExecuteSQL env s).calls = s.calls ++ [.schemaStatus] ∧
      (handleExecuteSQL env s).toasts = s.toasts ++ [noSchemaExecuteToast] ∧
      (handleExecuteSQL env s).st.generatedSQL = s.st.generatedSQL ∧
      (handleExecuteSQL env s).st.editableSQL = s.st.editableSQL ∧
      (handleExecuteSQL env s).st.queryResults = s.st.queryResults ∧
      (handleExecuteSQL env s).st.naturalLanguageResponse = s.st.naturalLanguageResponse) := by
  constructor
  · intro hq
    simp [handleGenerateSQL, hq, hfetch, hinactive, pushToast, logCall]
  · intro hsql
    simp [handleExecuteSQL, hsql, hfetch, hinactive, pushToast, logCall]

/-- C2 witness: a concrete inactive-schema backend with non-blank inputs. -/
theorem no_active_schema_aborts_pipeline_witness :
    (handleGenerateSQL inactiveEnv demoSession).calls = demoSession.calls ++ [.schemaStatus] ∧
    (handleGenerateSQL inactiveEnv demoSession).toasts
      = demoSession.toasts ++ [noSchemaGenerateToast] ∧
    (handleExecuteSQL inactiveEnv demoSession).calls = demoSession.calls ++ [.schemaStatus] ∧
    (handleExecuteSQL inactiveEnv demoSession).toasts
      = demoSession.toasts ++ [noSchemaExecuteToast] := by
  have h := no_active_schema_aborts_pipeline inactiveEnv demoSession inactiveStatusVal rfl rfl
  have hg := h.1 (by decide)
  have he := h.2 (by decide)
  exact ⟨hg.1, hg.2.1, he.1, he.2.1⟩

/-- C3 (confirmed).  Triggering generate with input whose trim is empty
performs zero network calls (the call log is untouched, so not even the
schema-status fetch), raises the validation toast, and leaves the entire
dashboard state record unchanged. -/
theorem blank_query_blocks_generate (env : Env) (s : Session)
    (h : jsTrim s.st.naturalLanguageQuery = "") :
    (handleGenerateSQL env s).calls = s.calls ∧
    (handleGenerateSQL env s).st = s.st ∧
    (handleGenerateSQL env s).toasts = s.toasts ++ [emptyQueryToast] := by
  simp [handleGenerateSQL, h, pushToast]

/-- C3 witness: the fresh session has an empty query. -/
theorem blank_query_blocks_generate_witness :
    (handleGenerateSQL inactiveEnv initSession).calls = initSession.calls ∧
    (handleGenerateSQL inactiveEnv initSession).st = initSession.st ∧
    (handleGenerateSQL inactiveEnv initSession).toasts
      = initSession.toasts ++ [emptyQueryToast] :=
  blank_query_blocks_generate inactiveEnv initSession (by decide)

/-- C4 (confirmed).  When execution succeeds with an empty `results` list,
the call log grows by exactly `[schemaStatus, execute]` — `analyzeResults`
is never invoked — and the stored analysis text is the empty string while
the stored results are the empty list. -/
theorem zero_rows_skip_analysis (env : Env) (s : Session) (status result : JSValue)
    (hsql : jsTrim s.st.editableSQL ≠ "")
    (hfetch : fetchActiveSchema env.schemaStatusResp = .ok status)
    (hactive : (status.getField "status").eqStr "active" = true)
    (hid : (status.getField "schema_id").truthy = true)
    (hexec : executeSQL env.executeResp = .ok result)
    (hres : result.getField "results" = .arr []) :
    (handleExecuteSQL env s).calls = s.calls ++ [.schemaStatus, .execute] ∧
    (handleExecuteSQL env s).st.naturalLanguageResponse = "" ∧
    (handleExecuteSQL env s).st.queryResults = .arr [] := by
  simp [handleExecuteSQL, hsql, hfetch, hactive, hid, hexec, pushToast, logCall]
  simp [hres, shouldAnalyze, displayedRowCount, JSValue.truthy, JSValue.jsLength]

/-- C4 witness: a concrete zero-row execution. -/
theorem zero_rows_skip_analysis_witness :
    (handleExecuteSQL emptyRowsEnv demoSession).calls
      = demoSession.calls ++ [.schemaStatus, .execute] ∧
    (handleExecuteSQL emptyRowsEnv demoSession).st.naturalLanguageResponse = "" ∧
    (handleExecuteSQL emptyRowsEnv demoSession).st.queryResults = .arr [] :=
  zero_rows_skip_analysis emptyRowsEnv demoSession activeStatusVal
    (.obj [("results", .arr [])]) (by decide) rfl rfl rfl rfl rfl

/-- C5 (confirmed).  When execution succeeds with at least one row and the
analysis call fails with message `m`, the stored analysis text is a string
containing `m` (`"Failed to generate analysis: " ++ ...`, or the
`"Unknown error"` tail when `m` is empty — which still contains the empty
`m`), and the stored result rows are exactly the executed rows, untouched by
the analysis failure.  The handler returns normally, so nothing is thrown. -/
theorem analysis_failure_inline_message (env : Env) (s : Session)
    (status result : JSValue) (rs : List JSValue) (e : JsErr)
    (hsql : jsTrim s.st.editableSQL ≠ "")
    (hfetch : fetchActiveSchema env.schemaStatusResp = .ok status)
    (hactive : (status.getField "status").eqStr "active" = true)
    (hid : (status.getField "schema_id").truthy = true)
    (hexec : executeSQL env.executeResp = .ok result)
    (hres : result.getField "results" = .arr rs)
    (hrs : rs ≠ [])
    (hana : analyzeResults env.analyzeResp = .error e) :
    (handleExecuteSQL env s).st.queryResults = .arr rs ∧
    (∃ pre post, (handleExecuteSQL env s).st.naturalLanguageResponse
        = pre ++ e.message ++ post) := by
  have hlen : 0 < rs.length := List.length_pos.mpr hrs
  constructor
  · simp [handleExecuteSQL, hsql, hfetch, hactive, hid, hexec, hana, pushToast, logCall]
    simp [hres, shouldAnalyze, displayedRowCount, JSValue.truthy, JSValue.jsLength, hlen]
  · by_cases hm : e.message = ""
    · refine ⟨"Failed to generate analysis: Unknown error", "", ?_⟩
      simp [handleExecuteSQL, hsql, hfetch, hactive, hid, hexec, hana, pushToast, logCall]
      simp [hres, shouldAnalyze, displayedRowCount, JSValue.truthy, JSValue.jsLength, hlen,
        strOr, hm]
    · refine ⟨"Failed to generate analysis: ", "", ?_⟩
      simp [handleExecuteSQL, hsql, hfetch, hactive, hid, hexec, hana, pushToast, logCall]
      simp [hres, shouldAnalyze, displayedRowCount, JSValue.truthy, JSValue.jsLength, hlen,
        strOr, hm]

/-- C5 witness: one row returned, analysis fails with `"rate limited"`. -/
theorem analysis_failure_inline_message_witness :
    (handleExecuteSQL oneRowEnv demoSession).st.queryResults
      = .arr [.obj [("id", .num 1)]] ∧
    (∃ pre post, (handleExecuteSQL oneRowEnv demoSession).st.naturalLanguageResponse
        = pre ++ (JsErr.thrown "rate limited").message ++ post) :=
  analysis_failure_inline_message oneRowEnv demoSession activeStatusVal
    (.obj [("results", .arr [.obj [("id", .num 1)]])]) [.obj [("id", .num 1)]]
    (.thrown "rate limited") (by decide) rfl rfl rfl rfl rfl (by simp)
    (by simp [analyzeResults, oneRowEnv, respJson, errorDetailMsg, JSValue.getField,
      JSValue.truthy, JSValue.asString])

/-- C6 (corrected).  The tick-driven part of the progress sequence is
monotonically non-decreasing (increments are non-negative) and stays
strictly below 105, and on the success path the final forced value is
exactly 100.  The original claim fails because a tick from a value just
below 90 can overshoot 100 (increments range over `[0, 15)`), after which
the forced 100 is a decrease; a tick can also land on exactly 100 before the
request settles. -/
theorem upload_progress_profile (incrs : List ℚ)
    (h0 : ∀ i ∈ incrs, 0 ≤ i) (h15 : ∀ i ∈ incrs, i < 15) :
    List.Chain' (· ≤ ·) (0 :: tickTrace 0 incrs) ∧
    (∀ v ∈ tickTrace 0 incrs, v < 105) ∧
    (uploadTraceSuccess incrs).getLast? = some 100 := by
  refine ⟨tickTrace_chain incrs 0 h0, tickTrace_lt incrs 0 (by norm_num) h15, ?_⟩
  show (((0 : ℚ) :: tickTrace 0 incrs) ++ [(100 : ℚ)]).getLast? = some 100
  exact List.getLast?_concat _

/-- C6 witness: two moderate ticks then settle. -/
theorem upload_progress_profile_witness :
    List.Chain' (· ≤ ·) ((0 : ℚ) :: tickTrace 0 [10, 10]) ∧
    (uploadTraceSuccess [10, 10]).getLast? = some 100 := by
  have h := upload_progress_profile [10, 10] (by decide) (by decide)
  exact ⟨h.1, h.2.2⟩

/-- C6 counterexample to the claim as stated: seven ticks whose increments
all lie in `[0, 15)` reach 84, then 87, then overshoot to 101; the forced
final 100 then decreases, so the whole session trace is not monotonically
non-decreasing. -/
theorem upload_progress_not_monotone :
    ¬ List.Chain' (· ≤ ·) (uploadTraceSuccess [14, 14, 14, 14, 14, 14, 3, 14]) := by
  norm_num [uploadTraceSuccess, tickTrace, tickStep, List.chain'_cons]

/-- C7 (confirmed).  A successful generate action (non-blank input, active
schema with a truthy id, backend returning `generated_sql` string `sql`)
stores the same string `sql` in both the displayed and the editable SQL
fields. -/
theorem generated_sql_mirrored_to_editor (env : Env) (s : Session)
    (status result : JSValue) (sql : String)
    (hq : jsTrim s.st.naturalLanguageQuery ≠ "")
    (hfetch : fetchActiveSchema env.schemaStatusResp = .ok status)
    (hactive : (status.getField "status").eqStr "active" = true)
    (hid : (status.getField "schema_id").truthy = true)
    (hgen : generateSQL env.generateResp = .ok result)
    (hsql : result.getField "generated_sql" = .str sql) :
    (handleGenerateSQL env s).st.generatedSQL = sql ∧
    (handleGenerateSQL env s).st.editableSQL = sql := by
  simp [handleGenerateSQL, hq, hfetch, hactive, hid, hgen, hsql, pushToast, logCall,
    JSValue.asString]

/-- C7 witness: the scenario of the spec, with schema id `"abc"`. -/
theorem generated_sql_mirrored_to_editor_witness :
    (handleGenerateSQL genOkEnv demoSession).st.generatedSQL
      = "SELECT * FROM customers LIMIT 5" ∧
    (handleGenerateSQL genOkEnv demoSession).st.editableSQL
      = "SELECT * FROM customers LIMIT 5" :=
  generated_sql_mirrored_to_editor genOkEnv demoSession activeStatusVal
    (.obj [("generated_sql", .str "SELECT * FROM customers LIMIT 5")])
    "SELECT * FROM customers LIMIT 5" (by decide) rfl rfl rfl rfl rfl

/-- C8 (confirmed).  The timeout-equipped `uploadSchema` variant uses a
`10 * 60 * 1000` ms deadline; when the request has not settled before it,
the timer fires, the request is aborted, and the operation fails with the
`AbortError`; when the request settles before the deadline the timer is
cleared on every path (success and failure alike) and the outcome agrees
with the plain `uploadSchema`. -/
theorem upload_timeout_contract :
    uploadTimeoutMs = 600000 ∧
    (∀ (r : HttpResponse) (t : Nat), uploadTimeoutMs ≤ t →
      (uploadSchemaWithTimeout (some t) r).outcome = .error .abortErr ∧
      (uploadSchemaWithTimeout (some t) r).timerFired = true) ∧
    (∀ r : HttpResponse,
      (uploadSchemaWithTimeout none r).outcome = .error .abortErr ∧
      (uploadSchemaWithTimeout none r).timerFired = true) ∧
    (∀ (r : HttpResponse) (t : Nat), t < uploadTimeoutMs →
      (uploadSchemaWithTimeout (some t) r).timerCleared = true ∧
      (uploadSchemaWithTimeout (some t) r).timerFired = false ∧
      (uploadSchemaWithTimeout (some t) r).outcome = uploadSchema r) := by
  refine ⟨rfl, ?_, ?_, ?_⟩
  · intro r t ht
    simp [uploadSchemaWithTimeout, Nat.not_lt.mpr ht]
  · intro r
    simp [uploadSchemaWithTimeout]
  · intro r t ht
    simp [uploadSchemaWithTimeout, ht, uploadSchema]

/-- C8 witness: a settle at the deadline aborts; an instant settle clears. -/
theorem upload_timeout_contract_witness :
    (uploadSchemaWithTimeout (some 600000) nullOkResp).outcome = .error .abortErr ∧
    (uploadSchemaWithTimeout (some 0) nullOkResp).timerCleared = true :=
  ⟨(upload_timeout_contract.2.1 nullOkResp 600000 (by decide)).1,
   (upload_timeout_contract.2.2.2 nullOkResp 0 (by decide)).1⟩

/-- C9 (confirmed).  When the mount-time schema-status fetch fails, the
dashboard silently records no active schema: `hasSchema` becomes false,
the schema name becomes `none`, and no toast is raised.  `checkSchemaStatus`
is a total function into `Session`, so the failure is not rethrown. -/
theorem mount_status_failure_silent (env : Env) (s : Session) (e : JsErr)
    (hfetch : fetchActiveSchema env.schemaStatusResp = .error e) :
    (checkSchemaStatus env s).st.hasSchema = false ∧
    (checkSchemaStatus env s).st.schemaName = none ∧
    (checkSchemaStatus env s).toasts = s.toasts := by
  simp [checkSchemaStatus, hfetch, logCall]

/-- C9 witness: the status endpoint answering non-2xx at mount time. -/
theorem mount_status_failure_silent_witness :
    (checkSchemaStatus statusDownEnv initSession).st.hasSchema = false ∧
    (checkSchemaStatus statusDownEnv initSession).st.schemaName = none ∧
    (checkSchemaStatus statusDownEnv initSession).toasts = initSession.toasts :=
  mount_status_failure_silent statusDownEnv initSession
    (.thrown "Failed to fetch schema status") rfl

/-- C10 (confirmed).  When execution succeeds but the body has no `results`
field (or it is JSON `null`), the stored results are the empty list, the
success toast reports `"Retrieved 0 rows."`, the call log grows by exactly
`[schemaStatus, execute]` (no analysis call), and the analysis text is
empty — the missing field behaves exactly like a zero-row result. -/
theorem missing_results_treated_as_empty (env : Env) (s : Session)
    (status result : JSValue)
    (hsql : jsTrim s.st.editableSQL ≠ "")
    (hfetch : fetchActiveSchema env.schemaStatusResp = .ok status)
    (hactive : (status.getField "status").eqStr "active" = true)
    (hid : (status.getField "schema_id").truthy = true)
    (hexec : executeSQL env.executeResp = .ok result)
    (hres : result.getField "results" = .undefined ∨ result.getField "results" = .nul) :
    (handleExecuteSQL env s).st.queryResults = .arr [] ∧
    (handleExecuteSQL env s).toasts = s.toasts ++
      [⟨"Query executed successfully!", "Retrieved 0 rows.", false⟩] ∧
    (handleExecuteSQL env s).calls = s.calls ++ [.schemaStatus, .execute] ∧
    (handleExecuteSQL env s).st.naturalLanguageResponse = "" := by
  rcases hres with hres | hres <;>
  · simp [handleExecuteSQL, hsql, hfetch, hactive, hid, hexec, pushToast, logCall]
    simp [hres, shouldAnalyze, displayedRowCount, JSValue.truthy, JSValue.jsLength]
    rfl

/-- C10 witness: an execute body carrying only a `rowcount` field. -/
theorem missing_results_treated_as_empty_witness :
    (handleExecuteSQL noResultsFieldEnv demoSession).st.queryResults = .arr [] ∧
    (handleExecuteSQL noResultsFieldEnv demoSession).toasts = demoSession.toasts ++
      [⟨"Query executed successfully!", "Retrieved 0 rows.", false⟩] ∧
    (handleExecuteSQL noResultsFieldEnv demoSession).calls
      = demoSession.calls ++ [.schemaStatus, .execute] ∧
    (handleExecuteSQL noResultsFieldEnv demoSession).st.naturalLanguageResponse = "" :=
  missing_results_treated_as_empty noResultsFieldEnv demoSession activeStatusVal
    (.obj [("rowcount", .num 0)]) (by decide) rfl rfl rfl rfl (Or.inl rfl)

end LucidQuery
